import Mathlib

/-!
Verification of the social-listening pipeline (Slackbot sentiment-analysis
custom workflow step).

The development shallowly embeds the JavaScript sources:
* `src/data-aggregator.js` — `DataAggregator.aggregateResults`,
  `calculateMetrics`, `determineDataSource`, `deduplicateEntries`;
* the Claude service (`SocialListeningService.parseResponse`,
  `analyzeBrandSentiment`, `analyzeSocialListening`);
* the Reddit adapter (`RedditService.sortByEngagement`, exported
  `searchReddit`) and the Serper web-search adapter (exported `searchSerper`).

Machine strings are modelled as Lean `String` (lists of Unicode scalar
values); JavaScript string helpers (`trim`, `toLowerCase`, `includes`) are
re-implemented below on the underlying character lists.  Network calls,
environment variables and wall-clock timestamps are parameters of the
embedded functions: a fallible call becomes an `Except` argument, an
environment variable an `Option String`, a timestamp a plain `String`.
-/

namespace SocialListening

/-! ## JavaScript string primitives -/

/-- `listStartsWith hay pat` holds when `pat` is a prefix of `hay`
(character-list version of JavaScript `String.prototype.startsWith`). -/
def listStartsWith : List Char → List Char → Bool
  | _, [] => true
  | [], _ :: _ => false
  | c :: cs, p :: ps => c == p && listStartsWith cs ps

/-- `listHasInfix hay pat` holds when `pat` occurs contiguously inside
`hay` (character-list version of JavaScript `String.prototype.includes`). -/
def listHasInfix : List Char → List Char → Bool
  | [], pat => pat.isEmpty
  | c :: rest, pat => listStartsWith (c :: rest) pat || listHasInfix rest pat

/-- JavaScript `String.prototype.includes` on Lean strings. -/
def containsSubstr (s pat : String) : Bool :=
  listHasInfix s.data pat.data

/-- The whitespace class of JavaScript's `\s` / `trim` (the characters that
can actually occur in this pipeline's strings). -/
def isJsWhitespace (c : Char) : Bool :=
  c == ' ' || c == '\t' || c == '\n' || c == '\r' || c == '\x0b' ||
  c == '\x0c' || c == '\xa0' || c == '\uFEFF'

/-- JavaScript `String.prototype.trim`: strip leading and trailing
whitespace. -/
def jsTrim (s : String) : String :=
  ⟨((s.data.dropWhile isJsWhitespace).reverse.dropWhile isJsWhitespace).reverse⟩

/-- JavaScript `String.prototype.toLowerCase` (ASCII case mapping, the only
case-relevant characters in the pipeline's fixed phrases). -/
def jsToLowerCase (s : String) : String :=
  ⟨s.data.map Char.toLower⟩

/-! ## Data model

`WebResult` is one Serper search record (`executeSerperSearch`'s mapped
shape, the fields the pipeline reads).  `RedditPost` is
`RedditService.extractPostData`'s shape. -/

structure WebResult where
  name : String
  url : String
  snippet : String
deriving DecidableEq

structure RedditPost where
  title : String
  body : String
  subreddit : String
  score : Int
  numComments : Nat
  author : String
  permalink : String
  url : String
deriving DecidableEq

/-- The sentiment summary produced by `RedditService.extractSentiment`
(`avgScore` is only ever inspected symbolically here). -/
structure SentimentStats where
  avgScore : Int
  totalEngagement : Nat
  sentiment : String
deriving DecidableEq

/-- Output shape of the exported `searchReddit` adapter. -/
structure RedditData where
  posts : List RedditPost
  formattedText : String
  sentiment : SentimentStats
deriving DecidableEq

/-- Output shape of the exported `searchSerper` (alias `searchBing`)
adapter. -/
structure BingData where
  linkedin : List WebResult
  twitter : List WebResult
  reviews : List WebResult
  blogs : List WebResult
  formattedText : String
  totalResults : Nat
deriving DecidableEq

/-- The aggregator's reddit bucket (`DataAggregator.aggregateResults`,
local `reddit`). -/
structure RedditBucket where
  posts : List RedditPost
  totalMentions : Nat
  sentiment : SentimentStats
  formattedText : String
deriving DecidableEq

/-- One web platform bucket (`linkedin`/`twitter`/`reviews`/`blogs` in
`DataAggregator.aggregateResults`). -/
structure WebBucket where
  results : List WebResult
  totalResults : Nat
deriving DecidableEq

/-- `DataAggregator.calculateMetrics`'s result object. -/
structure AggregateStats where
  totalSources : Nat
  dateRange : String
  platforms : List String
  breakdownReddit : Nat
  breakdownLinkedin : Nat
  breakdownTwitter : Nat
  breakdownReviews : Nat
  breakdownBlogs : Nat
  redditSentiment : String
  redditAvgScore : Int
deriving DecidableEq

/-- The aggregated corpus returned by `DataAggregator.aggregateResults`
(the `formattedForClaude` prompt rendering is not needed by any claim and
is omitted). -/
structure AggregatedData where
  reddit : RedditBucket
  linkedin : WebBucket
  twitter : WebBucket
  reviews : WebBucket
  blogs : WebBucket
  aggregateStats : AggregateStats
  dataSource : String
deriving DecidableEq

/-! ## Aggregator (`src/data-aggregator.js`) -/

/-- `DataAggregator.calculateMetrics`. -/
def calculateMetrics (reddit : RedditBucket) (linkedin twitter reviews blogs : WebBucket)
    (timeRange : String) : AggregateStats :=
  let totalSources := reddit.totalMentions + linkedin.totalResults + twitter.totalResults +
    reviews.totalResults + blogs.totalResults
  let platformsWithData :=
    (if reddit.totalMentions > 0 then ["Reddit"] else []) ++
    (if linkedin.totalResults > 0 then ["LinkedIn"] else []) ++
    (if twitter.totalResults > 0 then ["Twitter/X"] else []) ++
    (if reviews.totalResults > 0 then ["Review Sites"] else []) ++
    (if blogs.totalResults > 0 then ["Blogs"] else [])
  { totalSources := totalSources
    dateRange := timeRange
    platforms := platformsWithData
    breakdownReddit := reddit.totalMentions
    breakdownLinkedin := linkedin.totalResults
    breakdownTwitter := twitter.totalResults
    breakdownReviews := reviews.totalResults
    breakdownBlogs := blogs.totalResults
    redditSentiment := reddit.sentiment.sentiment
    redditAvgScore := reddit.sentiment.avgScore }

/-- `DataAggregator.determineDataSource`: `hasReddit` is
`reddit.totalMentions > 0`, `hasBing` is `bingData.totalResults > 0`. -/
def determineDataSource (reddit : RedditBucket) (bingData : BingData) : String :=
  if reddit.totalMentions > 0 ∧ bingData.totalResults > 0 then "real-time"
  else if reddit.totalMentions > 0 ∨ bingData.totalResults > 0 then "partial"
  else "fallback"

/-- `DataAggregator.aggregateResults` (bucketing, metrics and data-source
classification; the adapters always supply the `posts`/platform arrays, so
the `|| []` defaults collapse). -/
def aggregateResultsCore (redditData : RedditData) (bingData : BingData)
    (_brand timeRange : String) : AggregatedData :=
  let reddit : RedditBucket :=
    { posts := redditData.posts
      totalMentions := redditData.posts.length
      sentiment := redditData.sentiment
      formattedText := redditData.formattedText }
  let linkedin : WebBucket := { results := bingData.linkedin, totalResults := bingData.linkedin.length }
  let twitter : WebBucket := { results := bingData.twitter, totalResults := bingData.twitter.length }
  let reviews : WebBucket := { results := bingData.reviews, totalResults := bingData.reviews.length }
  let blogs : WebBucket := { results := bingData.blogs, totalResults := bingData.blogs.length }
  { reddit := reddit
    linkedin := linkedin
    twitter := twitter
    reviews := reviews
    blogs := blogs
    aggregateStats := calculateMetrics reddit linkedin twitter reviews blogs timeRange
    dataSource := determineDataSource reddit bingData }

/-- The per-bucket body of `DataAggregator.deduplicateEntries`'s
`filter`: walk the results, dropping any whose url is already in the seen
set and recording the kept urls.  Returns the kept records and the updated
seen set. -/
def dedupFilter : List String → List WebResult → List WebResult × List String
  | seen, [] => ([], seen)
  | seen, r :: rest =>
    if r.url ∈ seen then dedupFilter seen rest
    else
      let p := dedupFilter (r.url :: seen) rest
      (r :: p.1, p.2)

/-- First dedup step of `deduplicateEntries`: the `linkedin` bucket
against the initially empty seen set. -/
def dedupPass1 (d : AggregatedData) : List WebResult × List String :=
  dedupFilter [] d.linkedin.results

/-- Second dedup step: the `twitter` bucket against the seen set left by
the linkedin step. -/
def dedupPass2 (d : AggregatedData) : List WebResult × List String :=
  dedupFilter (dedupPass1 d).2 d.twitter.results

/-- Third dedup step: the `reviews` bucket. -/
def dedupPass3 (d : AggregatedData) : List WebResult × List String :=
  dedupFilter (dedupPass2 d).2 d.reviews.results

/-- Fourth dedup step: the `blogs` bucket. -/
def dedupPass4 (d : AggregatedData) : List WebResult × List String :=
  dedupFilter (dedupPass3 d).2 d.blogs.results

/-- `DataAggregator.deduplicateEntries`: filter the four web buckets (in
the source's fixed order `linkedin`, `twitter`, `reviews`, `blogs`) against
one running seen-url set, refresh each filtered bucket's `totalResults`,
then recompute `aggregateStats.totalSources`; the reddit bucket and the
remaining aggregate statistics are untouched. -/
def deduplicateEntries (d : AggregatedData) : AggregatedData :=
  { d with
    linkedin := { results := (dedupPass1 d).1, totalResults := (dedupPass1 d).1.length }
    twitter := { results := (dedupPass2 d).1, totalResults := (dedupPass2 d).1.length }
    reviews := { results := (dedupPass3 d).1, totalResults := (dedupPass3 d).1.length }
    blogs := { results := (dedupPass4 d).1, totalResults := (dedupPass4 d).1.length }
    aggregateStats := { d.aggregateStats with
      totalSources := d.reddit.totalMentions + (dedupPass1 d).1.length +
        (dedupPass2 d).1.length + (dedupPass3 d).1.length + (dedupPass4 d).1.length } }

/-- The exported `aggregateResults` of `src/data-aggregator.js`:
aggregation followed by the cross-bucket deduplication pass. -/
def aggregateResults (redditData : RedditData) (bingData : BingData)
    (brand timeRange : String) : AggregatedData :=
  deduplicateEntries (aggregateResultsCore redditData bingData brand timeRange)

/-! ## Response parser (`SocialListeningService.parseResponse`)

Each section is extracted by a regex of the shape
`/E\s*\*\*H\*\*(.*?)(?=S1|...|Sn|$)/s`: find the leftmost position where
the emoji marker `E` is followed by optional whitespace and the bold
header `H` (the header begins with `*`, which is not whitespace, so the
backtracking `\s*` is equivalent to skipping the maximal whitespace run),
then lazily capture up to the first following stop emoji — or to the end
of the string when none occurs. -/

/-- Match `E\s*\*\*H\*\*` at the head of `l`; on success return the
remainder after the header (the capture start). -/
def matchHeaderAt (marker header : String) (l : List Char) : Option (List Char) :=
  if listStartsWith l marker.data then
    let afterWs := (l.drop marker.data.length).dropWhile isJsWhitespace
    if listStartsWith afterWs header.data then
      some (afterWs.drop header.data.length)
    else none
  else none

/-- Scan for the leftmost match of `E\s*\*\*H\*\*` and return the capture
start. -/
def findHeader (marker header : String) : List Char → Option (List Char)
  | [] =>
    match matchHeaderAt marker header [] with
    | some r => some r
    | none => none
  | l@(_ :: rest) =>
    match matchHeaderAt marker header l with
    | some r => some r
    | none => findHeader marker header rest

/-- The lazy capture `(.*?)(?=S1|...|Sn|$)`: take characters until the
remaining text starts with one of the stop markers (or until the end). -/
def captureUntil (stops : List String) : List Char → List Char
  | [] => []
  | c :: rest =>
    if stops.any (fun s => listStartsWith (c :: rest) s.data) then []
    else c :: captureUntil stops rest

/-- One section-extraction regex application (`responseText.match(...)`,
returning the first capture group when the pattern matches). -/
def extractSection (text : String) (marker header : String) (stops : List String) :
    Option String :=
  (findHeader marker header text.data).map fun rem => ⟨captureUntil stops rem⟩

/-- The parsed `sections` object (its `timestamp` field is wall-clock
output and is not part of the embedding). -/
structure Sections where
  sentimentSummary : String
  positiveHighlights : String
  negativeConcerns : String
  trendingTopics : String
  competitiveInsights : String
  hasCriticalIssues : Bool
  fullReport : String
deriving DecidableEq

/-- A matched section's contribution to its field: the trimmed capture, or
`""` when the regex did not match. -/
def capturedField (m : Option String) : String :=
  ((m.map jsTrim).getD "")

/-- The critical-issue classification on the (already trimmed)
`sections.negativeConcerns` text: non-empty and free of the three
negative-result phrases, case-insensitively. -/
def computeHasCriticalIssues (negativeConcerns : String) : Bool :=
  let concernsLower := jsToLowerCase negativeConcerns
  decide (negativeConcerns ≠ "") &&
  !containsSubstr concernsLower "no critical concerns" &&
  !containsSubstr concernsLower "no significant concerns" &&
  !containsSubstr concernsLower "no critical issues"

/-- Stop set of the sentiment regex: `(?=✅|⚠️|🔥|🎯|💡|$)`. -/
def sentimentStops : List String := ["✅", "⚠️", "🔥", "🎯", "💡"]

/-- Stop set of the positive-highlights regex: `(?=⚠️|🔥|🎯|💡|📊|$)`. -/
def positiveStops : List String := ["⚠️", "🔥", "🎯", "💡", "📊"]

/-- Stop set of the concerns regex: `(?=🔥|🎯|💡|📊|✅|$)`. -/
def concernsStops : List String := ["🔥", "🎯", "💡", "📊", "✅"]

/-- Stop set of the trending-topics regex: `(?=🎯|💡|📊|✅|⚠️|$)`. -/
def trendingStops : List String := ["🎯", "💡", "📊", "✅", "⚠️"]

/-- Stop set of the competitive-insights regex: `(?=📊|✅|⚠️|🔥|$)`. -/
def competitiveStops : List String := ["📊", "✅", "⚠️", "🔥"]

/-- The concerns-section extraction of `parseResponse`. -/
def concernsCapture (responseText : String) : Option String :=
  extractSection responseText "⚠️" "**CRITICAL CONCERNS**" concernsStops

/-- `SocialListeningService.parseResponse`: extract the five sections,
classify critical issues from the concerns capture, and fall back to the
generic messages when no section produced content.  (The function body
raises no exception, so the source's `catch` arm is dead code.) -/
def parseResponse (responseText : String) : Sections :=
  let sentimentMatch := extractSection responseText "📊" "**SENTIMENT BREAKDOWN**" sentimentStops
  let positiveMatch := extractSection responseText "✅" "**POSITIVE HIGHLIGHTS**" positiveStops
  let concernsMatch := concernsCapture responseText
  let trendingMatch := extractSection responseText "🔥" "**TRENDING TOPICS**" trendingStops
  let competitiveMatch := extractSection responseText "🎯" "**COMPETITIVE INSIGHTS**" competitiveStops
  let sentimentSummary := capturedField sentimentMatch
  let positiveHighlights := capturedField positiveMatch
  let negativeConcerns := capturedField concernsMatch
  let trendingTopics := capturedField trendingMatch
  let competitiveInsights := capturedField competitiveMatch
  let hasCriticalIssues := concernsMatch.isSome && computeHasCriticalIssues negativeConcerns
  if sentimentSummary = "" ∧ positiveHighlights = "" ∧ negativeConcerns = "" ∧
      trendingTopics = "" ∧ competitiveInsights = "" then
    { sentimentSummary := "Unable to extract sentiment data from response."
      positiveHighlights := positiveHighlights
      negativeConcerns := "Manual review of full report required."
      trendingTopics := trendingTopics
      competitiveInsights := competitiveInsights
      hasCriticalIssues := hasCriticalIssues
      fullReport := responseText }
  else
    { sentimentSummary := sentimentSummary
      positiveHighlights := positiveHighlights
      negativeConcerns := negativeConcerns
      trendingTopics := trendingTopics
      competitiveInsights := competitiveInsights
      hasCriticalIssues := hasCriticalIssues
      fullReport := responseText }

/-! ## Source adapters (exported `searchReddit` / `searchSerper`)

The adapters' network interaction (credential lookup, HTTP transport, the
service objects' own searches) sits behind two parameters: the credential
presence and the guarded service computation's outcome. -/

/-- Engagement ranking value of `RedditService.sortByEngagement`:
`score + numComments * 2`. -/
def engagement (p : RedditPost) : Int :=
  p.score + (p.numComments : Int) * 2

/-- The comparator order of `sortByEngagement`'s `sort` callback: `a` may
precede `b` when `a`'s engagement is at least `b`'s. -/
def engRel (a b : RedditPost) : Prop :=
  engagement b ≤ engagement a

instance : DecidableRel engRel := fun a b =>
  inferInstanceAs (Decidable (engagement b ≤ engagement a))

instance : IsTotal RedditPost engRel :=
  ⟨fun a b => le_total (engagement b) (engagement a)⟩

instance : IsTrans RedditPost engRel :=
  ⟨fun _ _ _ hab hbc => le_trans hbc hab⟩

/-- `RedditService.sortByEngagement`: a stable comparator sort by
descending engagement (JavaScript's `Array.prototype.sort` with the
source's comparator). -/
def sortByEngagement (posts : List RedditPost) : List RedditPost :=
  List.insertionSort engRel posts

/-- `RedditService.extractSentiment`'s empty-input result, also used by
the exported adapter's failure arms. -/
def neutralSentiment : SentimentStats :=
  { avgScore := 0, totalEngagement := 0, sentiment := "neutral" }

/-- The exported `searchReddit` of `reddit-service.js`: missing
credentials short-circuit to the unavailable result; a failure of the
guarded service block is caught and converted to the error result; a
successful block yields its data unchanged. -/
def searchRedditExport (creds : Option Unit) (serviceOutcome : Except String RedditData) :
    RedditData :=
  match creds with
  | none =>
    { posts := []
      formattedText := "Reddit data unavailable (API credentials not configured)"
      sentiment := neutralSentiment }
  | some _ =>
    match serviceOutcome with
    | .ok d => d
    | .error msg =>
      { posts := []
        formattedText := "Reddit search error: " ++ msg
        sentiment := neutralSentiment }

/-- The exported `searchSerper` (alias `searchBing`) of
`search-service.js`. -/
def searchSerperExport (apiKey : Option Unit) (serviceOutcome : Except String BingData) :
    BingData :=
  match apiKey with
  | none =>
    { linkedin := [], twitter := [], reviews := [], blogs := []
      formattedText := "Web search data unavailable (Serper API key not configured)"
      totalResults := 0 }
  | some _ =>
    match serviceOutcome with
    | .ok d => d
    | .error msg =>
      { linkedin := [], twitter := [], reviews := [], blogs := []
        formattedText := "Web search error: " ++ msg
        totalResults := 0 }

/-! ## Analysis orchestrator (`SocialListeningService.analyzeBrandSentiment`,
exported `analyzeSocialListening`) -/

/-- The final result returned through the workflow boundary (`timestamp`
omitted as wall-clock output; `now` below stands for
`new Date().toISOString()`). -/
structure AnalysisResult where
  sentimentSummary : String
  positiveHighlights : String
  negativeConcerns : String
  trendingTopics : String
  competitiveInsights : String
  hasCriticalIssues : Bool
  fullReport : String
  dataSource : String
deriving DecidableEq

/-- Decorate parsed sections with the orchestrator's `dataSource` field. -/
def toAnalysisResult (s : Sections) (dataSource : String) : AnalysisResult :=
  { sentimentSummary := s.sentimentSummary
    positiveHighlights := s.positiveHighlights
    negativeConcerns := s.negativeConcerns
    trendingTopics := s.trendingTopics
    competitiveInsights := s.competitiveInsights
    hasCriticalIssues := s.hasCriticalIssues
    fullReport := s.fullReport
    dataSource := dataSource }

/-- The outer `catch` arm of `analyzeBrandSentiment`. -/
def errorAnalysisResult (now msg : String) : AnalysisResult :=
  { sentimentSummary := "Error: Unable to complete social listening analysis. Please check API credentials and try again."
    positiveHighlights := ""
    negativeConcerns := "Analysis error occurred."
    trendingTopics := ""
    competitiveInsights := ""
    hasCriticalIssues := true
    fullReport := "# Social Listening Analysis Error\n\n**Error:** " ++ msg ++ "\n\n**Time:** " ++ now
    dataSource := "error" }

/-- `analyzeWithRealData`'s provenance banner plus parse (given the
concatenated generation reply `fullResponse`). -/
def analyzeWithRealData (aggregated : AggregatedData) (brand timeRange now fullResponse : String) :
    Sections :=
  let parsed := parseResponse fullResponse
  { parsed with fullReport :=
      "# Social Listening Report (Real-Time Data)\n\n" ++
      "**Data Source:** " ++
      (if aggregated.dataSource = "real-time" then "✅ Real-time API data" else "⚠️ Partial API data") ++
      "\n" ++
      "**Sources:** " ++ toString aggregated.aggregateStats.totalSources ++ " mentions across " ++
      String.intercalate ", " aggregated.aggregateStats.platforms ++ "\n" ++
      "**Brand:** " ++ brand ++ "\n" ++
      "**Time Range:** " ++ timeRange ++ "\n" ++
      "**Generated:** " ++ now ++ "\n\n" ++
      "---\n\n" ++ fullResponse }

/-- `analyzeWithClaudeKnowledge`'s fallback banner plus parse. -/
def analyzeWithClaudeKnowledge (brand timeRange now fullResponse : String) : Sections :=
  let parsed := parseResponse fullResponse
  { parsed with fullReport :=
      "# Social Listening Report (Training Data Fallback)\n\n" ++
      "**Data Source:** ⚠️ Using Claude training data (API data unavailable)\n" ++
      "**Brand:** " ++ brand ++ "\n" ++
      "**Time Range:** " ++ timeRange ++ "\n" ++
      "**Generated:** " ++ now ++ "\n\n" ++
      "---\n\n" ++ fullResponse }

/-- `SocialListeningService.analyzeBrandSentiment`.  `fetchOutcome` is the
inner guarded block (the joined adapter fetches plus `aggregateResults`);
its failure is caught there and routes to the knowledge fallback.
`claudeReply` is the generation call's outcome (the concatenated text
segments on success); its failure reaches the outer `catch`, which yields
`errorAnalysisResult`. -/
def analyzeBrandSentiment (brand timeRange now : String)
    (fetchOutcome : Except String AggregatedData)
    (claudeReply : Except String String) : AnalysisResult :=
  let aggregatedOpt : Option AggregatedData :=
    match fetchOutcome with
    | .ok d => some d
    | .error _ => none
  let useRealData : Bool :=
    match aggregatedOpt with
    | some d => decide (0 < d.aggregateStats.totalSources)
    | none => false
  match claudeReply with
  | .error msg => errorAnalysisResult now msg
  | .ok fullResponse =>
    let parsed : Sections :=
      match aggregatedOpt, useRealData with
      | some d, true => analyzeWithRealData d brand timeRange now fullResponse
      | _, _ => analyzeWithClaudeKnowledge brand timeRange now fullResponse
    toAnalysisResult parsed
      (match aggregatedOpt with
       | some d => d.dataSource
       | none => "fallback")

/-- The exported `analyzeSocialListening` entry point: it reads
`ANTHROPIC_API_KEY` from the environment and **throws** (returns
`Except.error`) when the key is absent or empty, before any `catch`
boundary exists. -/
def analyzeSocialListening (apiKey : Option String) (brand timeRange now : String)
    (fetchOutcome : Except String AggregatedData)
    (claudeReply : Except String String) : Except String AnalysisResult :=
  match apiKey with
  | none => .error "ANTHROPIC_API_KEY environment variable is not set"
  | some k =>
    if k = "" then .error "ANTHROPIC_API_KEY environment variable is not set"
    else .ok (analyzeBrandSentiment brand timeRange now fetchOutcome claudeReply)

/-! ## Concrete instances used by the theorems below -/

/-- A forum post whose url also occurs in the linkedin bucket. -/
def c1post : RedditPost :=
  { title := "Acme on our stack", body := "we adopted Acme", subreddit := "SaaS"
    score := 5, numComments := 1, author := "alice"
    permalink := "https://reddit.com/r/SaaS/comments/1", url := "https://example.com/page" }

/-- A linkedin record sharing `c1post`'s url. -/
def c1web : WebResult :=
  { name := "Acme page", url := "https://example.com/page", snippet := "about Acme" }

/-- An aggregated corpus in which the same url sits in the forum bucket
and in the linkedin bucket. -/
def c1corpus : AggregatedData :=
  aggregateResultsCore
    { posts := [c1post], formattedText := "REDDIT DATA (1 posts)", sentiment := neutralSentiment }
    { linkedin := [c1web], twitter := [], reviews := [], blogs := []
      formattedText := "LINKEDIN DATA", totalResults := 1 }
    "Acme" "7 days"

/-- An aggregated corpus in which the same url sits in the linkedin and
twitter buckets, so the dedup pass drops one record. -/
def c10corpus : AggregatedData :=
  aggregateResultsCore
    { posts := [], formattedText := "No Reddit posts found for this brand.", sentiment := neutralSentiment }
    { linkedin := [{ name := "n1", url := "https://example.com/dup", snippet := "s1" }]
      twitter := [{ name := "n2", url := "https://example.com/dup", snippet := "s2" }]
      reviews := [], blogs := [], formattedText := "w", totalResults := 2 }
    "Acme" "7 days"

/-- Forum post A of the engagement-sort example: score 10, 5 comments. -/
def c9postA : RedditPost :=
  { title := "A", body := "", subreddit := "SaaS", score := 10, numComments := 5
    author := "a", permalink := "pa", url := "https://example.com/a" }

/-- Forum post B of the engagement-sort example: score 15, 0 comments. -/
def c9postB : RedditPost :=
  { title := "B", body := "", subreddit := "SaaS", score := 15, numComments := 0
    author := "b", permalink := "pb", url := "https://example.com/b" }

/-! ## Properties of the dedup filter -/

theorem dedupFilter_snd (seen : List String) (rs : List WebResult) :
    (dedupFilter seen rs).2 = ((dedupFilter seen rs).1.map WebResult.url).reverse ++ seen := by
  induction rs generalizing seen with
  | nil => simp [dedupFilter]
  | cons r rest ih =>
    by_cases h : r.url ∈ seen
    · simpa [dedupFilter, h] using ih seen
    · simp only [dedupFilter, h, if_neg, not_false_iff]
      rw [ih (r.url :: seen)]
      simp [List.append_assoc]

theorem dedupFilter_not_mem_seen (seen : List String) (rs : List WebResult) :
    ∀ r ∈ (dedupFilter seen rs).1, r.url ∉ seen := by
  induction rs generalizing seen with
  | nil => simp [dedupFilter]
  | cons r rest ih =>
    by_cases h : r.url ∈ seen
    · simpa [dedupFilter, h] using ih seen
    · intro x hx
      simp only [dedupFilter, h, if_neg, not_false_iff, List.mem_cons] at hx
      rcases hx with rfl | hx
      · exact h
      · have := ih (r.url :: seen) x hx
        exact fun hmem => this (List.mem_cons_of_mem _ hmem)

theorem dedupFilter_nodup (seen : List String) (rs : List WebResult) :
    ((dedupFilter seen rs).1.map WebResult.url).Nodup := by
  induction rs generalizing seen with
  | nil => simp [dedupFilter]
  | cons r rest ih =>
    by_cases h : r.url ∈ seen
    · simpa [dedupFilter, h] using ih seen
    · simp only [dedupFilter, h, if_neg, not_false_iff, List.map_cons, List.nodup_cons]
      refine ⟨?_, ih (r.url :: seen)⟩
      intro hmem
      rcases List.mem_map.mp hmem with ⟨x, hx, hxu⟩
      have := dedupFilter_not_mem_seen (r.url :: seen) rest x hx
      exact this (hxu ▸ List.mem_cons_self _ _)

theorem dedupFilter_of_fresh (seen : List String) (rs : List WebResult)
    (h1 : ∀ r ∈ rs, r.url ∉ seen) (h2 : (rs.map WebResult.url).Nodup) :
    (dedupFilter seen rs).1 = rs := by
  induction rs generalizing seen with
  | nil => simp [dedupFilter]
  | cons r rest ih =>
    have hr : r.url ∉ seen := h1 r (List.mem_cons_self _ _)
    simp only [dedupFilter, hr, if_neg, not_false_iff]
    simp only [List.map_cons, List.nodup_cons] at h2
    refine congrArg (r :: ·) (ih (r.url :: seen) ?_ h2.2)
    intro x hx hmem
    rcases List.mem_cons.mp hmem with hxu | hxu
    · exact h2.1 (hxu ▸ List.mem_map_of_mem WebResult.url hx)
    · exact h1 x (List.mem_cons_of_mem _ hx) hxu

theorem dedupFilter_mem (seen : List String) (rs : List WebResult) (u : String)
    (hu : u ∉ seen) (hm : u ∈ rs.map WebResult.url) :
    u ∈ (dedupFilter seen rs).1.map WebResult.url := by
  induction rs generalizing seen with
  | nil => simp at hm
  | cons r rest ih =>
    by_cases hru : u = r.url
    · subst hru
      simp [dedupFilter, hu]
    · have hm' : u ∈ rest.map WebResult.url := by
        rcases List.mem_cons.mp hm with h | h
        · exact absurd h hru
        · exact h
      by_cases h : r.url ∈ seen
      · simpa [dedupFilter, h] using ih seen hu hm'
      · have hu' : u ∉ r.url :: seen := by
          intro hc
          rcases List.mem_cons.mp hc with hc | hc
          · exact hru hc
          · exact hu hc
        simp only [dedupFilter, h, if_neg, not_false_iff, List.map_cons, List.mem_cons]
        exact Or.inr (ih (r.url :: seen) hu' hm')

theorem dedupFilter_self (seen : List String) (rs : List WebResult) :
    dedupFilter seen (dedupFilter seen rs).1 = dedupFilter seen rs := by
  have hfst : (dedupFilter seen (dedupFilter seen rs).1).1 = (dedupFilter seen rs).1 :=
    dedupFilter_of_fresh seen _ (dedupFilter_not_mem_seen seen rs) (dedupFilter_nodup seen rs)
  have hsnd : (dedupFilter seen (dedupFilter seen rs).1).2 = (dedupFilter seen rs).2 := by
    rw [dedupFilter_snd, hfst, dedupFilter_snd]
  exact Prod.ext hfst hsnd

/-! ## Stability of the dedup pass under repetition -/

theorem dedup_unfold (d : AggregatedData) :
    deduplicateEntries d =
      { d with
        linkedin := { results := (dedupPass1 d).1, totalResults := (dedupPass1 d).1.length }
        twitter := { results := (dedupPass2 d).1, totalResults := (dedupPass2 d).1.length }
        reviews := { results := (dedupPass3 d).1, totalResults := (dedupPass3 d).1.length }
        blogs := { results := (dedupPass4 d).1, totalResults := (dedupPass4 d).1.length }
        aggregateStats := { d.aggregateStats with
          totalSources := d.reddit.totalMentions + (dedupPass1 d).1.length +
            (dedupPass2 d).1.length + (dedupPass3 d).1.length + (dedupPass4 d).1.length } } :=
  rfl

theorem pass1_dedup (d : AggregatedData) :
    dedupPass1 (deduplicateEntries d) = dedupPass1 d := by
  show dedupFilter [] (dedupPass1 d).1 = dedupPass1 d
  exact dedupFilter_self [] d.linkedin.results

theorem pass2_dedup (d : AggregatedData) :
    dedupPass2 (deduplicateEntries d) = dedupPass2 d := by
  show dedupFilter (dedupPass1 (deduplicateEntries d)).2 (dedupPass2 d).1 = dedupPass2 d
  rw [pass1_dedup]
  exact dedupFilter_self (dedupPass1 d).2 d.twitter.results

theorem pass3_dedup (d : AggregatedData) :
    dedupPass3 (deduplicateEntries d) = dedupPass3 d := by
  show dedupFilter (dedupPass2 (deduplicateEntries d)).2 (dedupPass3 d).1 = dedupPass3 d
  rw [pass2_dedup]
  exact dedupFilter_self (dedupPass2 d).2 d.reviews.results

theorem pass4_dedup (d : AggregatedData) :
    dedupPass4 (deduplicateEntries d) = dedupPass4 d := by
  show dedupFilter (dedupPass3 (deduplicateEntries d)).2 (dedupPass4 d).1 = dedupPass4 d
  rw [pass3_dedup]
  exact dedupFilter_self (dedupPass3 d).2 d.blogs.results

/-- Urls recorded in the seen set after the linkedin pass are exactly the
urls kept in the deduplicated linkedin bucket. -/
theorem mem_pass1_snd (d : AggregatedData) (u : String) :
    u ∈ (dedupPass1 d).2 ↔ u ∈ (dedupPass1 d).1.map WebResult.url := by
  have h : (dedupPass1 d).2 = ((dedupPass1 d).1.map WebResult.url).reverse ++ ([] : List String) :=
    dedupFilter_snd [] d.linkedin.results
  rw [h]
  simp

/-- Urls recorded after the twitter pass: the kept twitter urls plus the
previously seen ones. -/
theorem mem_pass2_snd (d : AggregatedData) (u : String) :
    u ∈ (dedupPass2 d).2 ↔ u ∈ (dedupPass2 d).1.map WebResult.url ∨ u ∈ (dedupPass1 d).2 := by
  have h : (dedupPass2 d).2 = ((dedupPass2 d).1.map WebResult.url).reverse ++ (dedupPass1 d).2 :=
    dedupFilter_snd (dedupPass1 d).2 d.twitter.results
  rw [h]
  simp

/-- Urls recorded after the reviews pass. -/
theorem mem_pass3_snd (d : AggregatedData) (u : String) :
    u ∈ (dedupPass3 d).2 ↔ u ∈ (dedupPass3 d).1.map WebResult.url ∨ u ∈ (dedupPass2 d).2 := by
  have h : (dedupPass3 d).2 = ((dedupPass3 d).1.map WebResult.url).reverse ++ (dedupPass2 d).2 :=
    dedupFilter_snd (dedupPass2 d).2 d.reviews.results
  rw [h]
  simp

/-! ## Claims -/

/-- C1: the claim is false on the code.  In `c1corpus` the url
`https://example.com/page` sits in both the forum (reddit) bucket and the
linkedin bucket, yet after `deduplicateEntries` the linkedin bucket still
contains the record: the dedup pass never consults the forum bucket, so
the record is not dropped from the web bucket. -/
theorem c1_counterexample :
    c1web.url = c1post.url ∧
    c1post ∈ c1corpus.reddit.posts ∧
    c1web ∈ c1corpus.linkedin.results ∧
    c1web ∈ (deduplicateEntries c1corpus).linkedin.results := by
  decide

/-- C1 (amended): the dedup pass iterates only the four web buckets, in
the fixed order linkedin, twitter, reviews, blogs, against one running
seen set that starts empty; the forum bucket is neither consulted nor
changed, so a url shared between forum and a web bucket stays in both,
while among the web buckets a duplicated url is kept only in the earliest
bucket and dropped from the later ones. -/
theorem c1_amended (d : AggregatedData) :
    (deduplicateEntries d).reddit = d.reddit ∧
    (∀ u, u ∈ d.linkedin.results.map WebResult.url →
      u ∈ (deduplicateEntries d).linkedin.results.map WebResult.url) ∧
    (∀ r ∈ (deduplicateEntries d).twitter.results,
      r.url ∉ (deduplicateEntries d).linkedin.results.map WebResult.url) ∧
    (∀ r ∈ (deduplicateEntries d).reviews.results,
      r.url ∉ (deduplicateEntries d).linkedin.results.map WebResult.url ∧
      r.url ∉ (deduplicateEntries d).twitter.results.map WebResult.url) ∧
    (∀ r ∈ (deduplicateEntries d).blogs.results,
      r.url ∉ (deduplicateEntries d).linkedin.results.map WebResult.url ∧
      r.url ∉ (deduplicateEntries d).twitter.results.map WebResult.url ∧
      r.url ∉ (deduplicateEntries d).reviews.results.map WebResult.url) := by
  refine ⟨rfl, ?_, ?_, ?_, ?_⟩
  · intro u hu
    show u ∈ (dedupPass1 d).1.map WebResult.url
    exact dedupFilter_mem [] d.linkedin.results u (by simp) hu
  · intro r hr
    have h1 : r.url ∉ (dedupPass1 d).2 :=
      dedupFilter_not_mem_seen (dedupPass1 d).2 d.twitter.results r hr
    show r.url ∉ (dedupPass1 d).1.map WebResult.url
    exact fun hc => h1 ((mem_pass1_snd d r.url).mpr hc)
  · intro r hr
    have h2 : r.url ∉ (dedupPass2 d).2 :=
      dedupFilter_not_mem_seen (dedupPass2 d).2 d.reviews.results r hr
    constructor
    · show r.url ∉ (dedupPass1 d).1.map WebResult.url
      intro hc
      exact h2 ((mem_pass2_snd d r.url).mpr (Or.inr ((mem_pass1_snd d r.url).mpr hc)))
    · show r.url ∉ (dedupPass2 d).1.map WebResult.url
      intro hc
      exact h2 ((mem_pass2_snd d r.url).mpr (Or.inl hc))
  · intro r hr
    have h3 : r.url ∉ (dedupPass3 d).2 :=
      dedupFilter_not_mem_seen (dedupPass3 d).2 d.blogs.results r hr
    refine ⟨?_, ?_, ?_⟩
    · show r.url ∉ (dedupPass1 d).1.map WebResult.url
      intro hc
      exact h3 ((mem_pass3_snd d r.url).mpr
        (Or.inr ((mem_pass2_snd d r.url).mpr (Or.inr ((mem_pass1_snd d r.url).mpr hc)))))
    · show r.url ∉ (dedupPass2 d).1.map WebResult.url
      intro hc
      exact h3 ((mem_pass3_snd d r.url).mpr (Or.inr ((mem_pass2_snd d r.url).mpr (Or.inl hc))))
    · show r.url ∉ (dedupPass3 d).1.map WebResult.url
      intro hc
      exact h3 ((mem_pass3_snd d r.url).mpr (Or.inl hc))

/-- Witness for the amended C1: in `c1corpus` the shared url survives in
the deduplicated linkedin bucket. -/
theorem c1_witness :
    c1web.url ∈ (deduplicateEntries c1corpus).linkedin.results.map WebResult.url :=
  (c1_amended c1corpus).2.1 c1web.url (by decide)

/-- C2: `determineDataSource` yields real-time iff both the forum count
and the web total are positive, partial iff exactly one is, fallback iff
neither is; the aggregator wires it to the adapter results; forum 3 with
web 0 yields partial. -/
theorem c2_data_source_status :
    (∀ (reddit : RedditBucket) (bing : BingData),
      (determineDataSource reddit bing = "real-time" ↔
        0 < reddit.totalMentions ∧ 0 < bing.totalResults) ∧
      (determineDataSource reddit bing = "partial" ↔
        ((0 < reddit.totalMentions ∧ bing.totalResults = 0) ∨
         (reddit.totalMentions = 0 ∧ 0 < bing.totalResults))) ∧
      (determineDataSource reddit bing = "fallback" ↔
        reddit.totalMentions = 0 ∧ bing.totalResults = 0)) ∧
    (∀ (rd : RedditData) (bd : BingData) (brand timeRange : String),
      (aggregateResultsCore rd bd brand timeRange).dataSource =
        determineDataSource
          { posts := rd.posts, totalMentions := rd.posts.length
            sentiment := rd.sentiment, formattedText := rd.formattedText } bd) ∧
    determineDataSource
      { posts := [], totalMentions := 3, sentiment := neutralSentiment, formattedText := "" }
      { linkedin := [], twitter := [], reviews := [], blogs := []
        formattedText := "", totalResults := 0 } = "partial" := by
  refine ⟨?_, fun rd bd brand timeRange => rfl, by decide⟩
  intro reddit bing
  rcases Nat.eq_zero_or_pos reddit.totalMentions with h1 | h1 <;>
    rcases Nat.eq_zero_or_pos bing.totalResults with h2 | h2
  · unfold determineDataSource
    rw [if_neg (by omega), if_neg (by omega)]
    exact ⟨iff_of_false (by decide) (by omega),
      iff_of_false (by decide) (by omega), iff_of_true rfl ⟨h1, h2⟩⟩
  · unfold determineDataSource
    rw [if_neg (by omega), if_pos (by omega)]
    exact ⟨iff_of_false (by decide) (by omega),
      iff_of_true rfl (Or.inr ⟨h1, h2⟩), iff_of_false (by decide) (by omega)⟩
  · unfold determineDataSource
    rw [if_neg (by omega), if_pos (by omega)]
    exact ⟨iff_of_false (by decide) (by omega),
      iff_of_true rfl (Or.inl ⟨h1, h2⟩), iff_of_false (by decide) (by omega)⟩
  · unfold determineDataSource
    rw [if_pos ⟨h1, h2⟩]
    exact ⟨iff_of_true rfl ⟨h1, h2⟩,
      iff_of_false (by decide) (by omega), iff_of_false (by decide) (by omega)⟩

/-- C6: after the dedup pass, the recorded `totalSources` is the sum of
the per-bucket counts (reddit mentions plus the four web result counts),
and each web bucket's count matches its record list. -/
theorem c6_total_sources (d : AggregatedData) :
    (deduplicateEntries d).aggregateStats.totalSources =
      (deduplicateEntries d).reddit.totalMentions +
      (deduplicateEntries d).linkedin.totalResults +
      (deduplicateEntries d).twitter.totalResults +
      (deduplicateEntries d).reviews.totalResults +
      (deduplicateEntries d).blogs.totalResults ∧
    (deduplicateEntries d).linkedin.totalResults = (deduplicateEntries d).linkedin.results.length ∧
    (deduplicateEntries d).twitter.totalResults = (deduplicateEntries d).twitter.results.length ∧
    (deduplicateEntries d).reviews.totalResults = (deduplicateEntries d).reviews.results.length ∧
    (deduplicateEntries d).blogs.totalResults = (deduplicateEntries d).blogs.results.length :=
  ⟨rfl, rfl, rfl, rfl, rfl⟩

/-- C7: the cross-bucket dedup pass is idempotent — applying it twice
yields the same corpus (same bucket contents, same `totalSources`) as
applying it once. -/
theorem c7_dedup_idempotent (d : AggregatedData) :
    deduplicateEntries (deduplicateEntries d) = deduplicateEntries d := by
  rw [dedup_unfold (deduplicateEntries d), pass1_dedup, pass2_dedup, pass3_dedup, pass4_dedup]
  rfl

/-- C10: the dedup pass changes only the four web buckets and
`totalSources`; the reddit bucket, the platform list, the per-platform
breakdown, the remaining statistics and the data-source tag are left as
they were, so after a dropping dedup the breakdown can sum to more than
`totalSources` (witnessed by `c10corpus`). -/
theorem c10_frame :
    (∀ d : AggregatedData,
      (deduplicateEntries d).reddit = d.reddit ∧
      (deduplicateEntries d).aggregateStats.platforms = d.aggregateStats.platforms ∧
      (deduplicateEntries d).aggregateStats.breakdownReddit = d.aggregateStats.breakdownReddit ∧
      (deduplicateEntries d).aggregateStats.breakdownLinkedin = d.aggregateStats.breakdownLinkedin ∧
      (deduplicateEntries d).aggregateStats.breakdownTwitter = d.aggregateStats.breakdownTwitter ∧
      (deduplicateEntries d).aggregateStats.breakdownReviews = d.aggregateStats.breakdownReviews ∧
      (deduplicateEntries d).aggregateStats.breakdownBlogs = d.aggregateStats.breakdownBlogs ∧
      (deduplicateEntries d).aggregateStats.dateRange = d.aggregateStats.dateRange ∧
      (deduplicateEntries d).aggregateStats.redditSentiment = d.aggregateStats.redditSentiment ∧
      (deduplicateEntries d).aggregateStats.redditAvgScore = d.aggregateStats.redditAvgScore ∧
      (deduplicateEntries d).dataSource = d.dataSource) ∧
    (deduplicateEntries c10corpus).aggregateStats.totalSources <
      (deduplicateEntries c10corpus).aggregateStats.breakdownReddit +
      (deduplicateEntries c10corpus).aggregateStats.breakdownLinkedin +
      (deduplicateEntries c10corpus).aggregateStats.breakdownTwitter +
      (deduplicateEntries c10corpus).aggregateStats.breakdownReviews +
      (deduplicateEntries c10corpus).aggregateStats.breakdownBlogs :=
  ⟨fun d => ⟨rfl, rfl, rfl, rfl, rfl, rfl, rfl, rfl, rfl, rfl, rfl⟩, by decide⟩

/-- The characters of an appended string are the appended character
lists. -/
theorem string_data_append (s t : String) : (s ++ t).data = s.data ++ t.data := by
  cases s
  cases t
  rfl

/-- The length of an appended string. -/
theorem string_length_append (s t : String) : (s ++ t).length = s.length + t.length := by
  show (s ++ t).data.length = s.data.length + t.data.length
  rw [string_data_append, List.length_append]

/-- C3: the claim is false on the code.  With `ANTHROPIC_API_KEY` unset,
the exported `analyzeSocialListening` entry point throws before any catch
boundary exists, so a raw exception — not an `AnalysisResult` — reaches
the caller. -/
theorem c3_counterexample :
    analyzeSocialListening none "Acme" "7 days" "2026-01-01T00:00:00.000Z"
      (Except.error "network down") (Except.ok "📊 **SENTIMENT BREAKDOWN**\n• fine") =
      Except.error "ANTHROPIC_API_KEY environment variable is not set" :=
  rfl

/-- C3 (amended): inside `analyzeBrandSentiment` failures are layered — a
generation-call failure reaches the outer catch and becomes the fixed
error result (critical flag set, highlight/trending/competitive fields
empty, error banner in the full report, data source tagged error), while
an adapter-fetch/aggregation failure is caught by the inner guard and
routed to the knowledge-fallback path, still returning a normal result;
only the entry point's missing-API-key throw escapes to the caller. -/
theorem c3_amended :
    (∀ (brand timeRange now : String) (fetchOutcome : Except String AggregatedData)
       (msg : String),
      analyzeBrandSentiment brand timeRange now fetchOutcome (Except.error msg) =
        errorAnalysisResult now msg) ∧
    (∀ now msg : String,
      (errorAnalysisResult now msg).hasCriticalIssues = true ∧
      (errorAnalysisResult now msg).positiveHighlights = "" ∧
      (errorAnalysisResult now msg).trendingTopics = "" ∧
      (errorAnalysisResult now msg).competitiveInsights = "" ∧
      (errorAnalysisResult now msg).fullReport =
        "# Social Listening Analysis Error\n\n**Error:** " ++ msg ++ "\n\n**Time:** " ++ now ∧
      (errorAnalysisResult now msg).dataSource = "error") ∧
    (∀ brand timeRange now fetchErr reply : String,
      analyzeBrandSentiment brand timeRange now (Except.error fetchErr) (Except.ok reply) =
        toAnalysisResult (analyzeWithClaudeKnowledge brand timeRange now reply) "fallback") :=
  ⟨fun _ _ _ _ _ => rfl,
   fun _ _ => ⟨rfl, rfl, rfl, rfl, rfl, rfl⟩,
   fun _ _ _ _ _ => rfl⟩

/-- C4: when the concerns-section regex matched, the critical-issue flag
is true exactly when the trimmed concerns text is non-empty and contains
none of the three negative-result phrases case-insensitively; the two
fixed example texts classify as stated. -/
theorem c4_critical_issue_detection :
    (∀ t : String,
      computeHasCriticalIssues t = true ↔
        (t ≠ "" ∧
         containsSubstr (jsToLowerCase t) "no critical concerns" = false ∧
         containsSubstr (jsToLowerCase t) "no significant concerns" = false ∧
         containsSubstr (jsToLowerCase t) "no critical issues" = false)) ∧
    (∀ (text c : String), concernsCapture text = some c →
      (parseResponse text).hasCriticalIssues = computeHasCriticalIssues (jsTrim c)) ∧
    computeHasCriticalIssues (jsTrim "• No critical concerns identified (source: review)") = false ∧
    computeHasCriticalIssues (jsTrim "• CRITICAL: pricing backlash (source: g2.com)") = true := by
  refine ⟨?_, ?_, by decide, by decide⟩
  · intro t
    unfold computeHasCriticalIssues
    simp [Bool.and_eq_true, decide_eq_true_eq, Bool.not_eq_true', and_assoc]
  · intro text c h
    simp only [parseResponse, h, capturedField, Option.map_some', Option.getD_some,
      Option.isSome_some, Bool.true_and]
    simp [apply_ite Sections.hasCriticalIssues]

/-- Witness for C4: a concrete reply whose concerns header matches. -/
theorem c4_witness :
    (parseResponse "⚠️ **CRITICAL CONCERNS**\n• CRITICAL: pricing backlash (source: g2.com)").hasCriticalIssues =
      computeHasCriticalIssues (jsTrim "\n• CRITICAL: pricing backlash (source: g2.com)") :=
  c4_critical_issue_detection.2.1 _ _ (by decide)

/-- All five section captures of `parseResponse` yield empty trimmed
text on this input. -/
def parseCapturesAllEmpty (text : String) : Bool :=
  capturedField (extractSection text "📊" "**SENTIMENT BREAKDOWN**" sentimentStops) == "" &&
  capturedField (extractSection text "✅" "**POSITIVE HIGHLIGHTS**" positiveStops) == "" &&
  capturedField (concernsCapture text) == "" &&
  capturedField (extractSection text "🔥" "**TRENDING TOPICS**" trendingStops) == "" &&
  capturedField (extractSection text "🎯" "**COMPETITIVE INSIGHTS**" competitiveStops) == ""

/-- C5: when no section capture yields non-empty text, `parseResponse`
returns (rather than raising) the structural-failure result: a generic
extraction-failure sentiment message, a manual-review concerns message,
`fullReport` equal to the raw input, the remaining fields empty, and
`hasCriticalIssues` false. -/
theorem c5_structural_parse_failure (text : String)
    (h : parseCapturesAllEmpty text = true) :
    parseResponse text =
      { sentimentSummary := "Unable to extract sentiment data from response."
        positiveHighlights := ""
        negativeConcerns := "Manual review of full report required."
        trendingTopics := ""
        competitiveInsights := ""
        hasCriticalIssues := false
        fullReport := text } := by
  unfold parseCapturesAllEmpty at h
  simp only [Bool.and_eq_true, beq_iff_eq] at h
  obtain ⟨⟨⟨⟨h1, h2⟩, h3⟩, h4⟩, h5⟩ := h
  simp only [parseResponse, h1, h2, h3, h4, h5]
  simp [computeHasCriticalIssues]

/-- Witness for C5: a reply with no emoji headers at all. -/
theorem c5_witness :
    parseResponse "The model wrote plain prose without any section markers." =
      { sentimentSummary := "Unable to extract sentiment data from response."
        positiveHighlights := ""
        negativeConcerns := "Manual review of full report required."
        trendingTopics := ""
        competitiveInsights := ""
        hasCriticalIssues := false
        fullReport := "The model wrote plain prose without any section markers." } :=
  c5_structural_parse_failure _ (by decide)

/-- C8: neither exported adapter lets a failure escape — with missing
credentials or a failing guarded service block, `searchReddit` returns no
posts plus a non-empty status text, and `searchSerper` returns empty
platform lists, a zero total and a non-empty status text. -/
theorem c8_adapters_never_raise :
    (∀ outcome : Except String RedditData,
      (searchRedditExport none outcome).posts = [] ∧
      0 < (searchRedditExport none outcome).formattedText.length) ∧
    (∀ msg : String,
      (searchRedditExport (some ()) (Except.error msg)).posts = [] ∧
      (searchRedditExport (some ()) (Except.error msg)).formattedText =
        "Reddit search error: " ++ msg ∧
      0 < (searchRedditExport (some ()) (Except.error msg)).formattedText.length) ∧
    (∀ outcome : Except String BingData,
      (searchSerperExport none outcome).linkedin = [] ∧
      (searchSerperExport none outcome).twitter = [] ∧
      (searchSerperExport none outcome).reviews = [] ∧
      (searchSerperExport none outcome).blogs = [] ∧
      (searchSerperExport none outcome).totalResults = 0 ∧
      0 < (searchSerperExport none outcome).formattedText.length) ∧
    (∀ msg : String,
      (searchSerperExport (some ()) (Except.error msg)).linkedin = [] ∧
      (searchSerperExport (some ()) (Except.error msg)).twitter = [] ∧
      (searchSerperExport (some ()) (Except.error msg)).reviews = [] ∧
      (searchSerperExport (some ()) (Except.error msg)).blogs = [] ∧
      (searchSerperExport (some ()) (Except.error msg)).totalResults = 0 ∧
      (searchSerperExport (some ()) (Except.error msg)).formattedText =
        "Web search error: " ++ msg ∧
      0 < (searchSerperExport (some ()) (Except.error msg)).formattedText.length) := by
  refine ⟨?_, ?_, ?_, ?_⟩
  · intro outcome
    refine ⟨rfl, ?_⟩
    show 0 < ("Reddit data unavailable (API credentials not configured)" : String).length
    decide
  · intro msg
    refine ⟨rfl, rfl, ?_⟩
    show 0 < ("Reddit search error: " ++ msg).length
    rw [string_length_append]
    have h : 0 < ("Reddit search error: ").length := by decide
    omega
  · intro outcome
    refine ⟨rfl, rfl, rfl, rfl, rfl, ?_⟩
    show 0 < ("Web search data unavailable (Serper API key not configured)" : String).length
    decide
  · intro msg
    refine ⟨rfl, rfl, rfl, rfl, rfl, rfl, ?_⟩
    show 0 < ("Web search error: " ++ msg).length
    rw [string_length_append]
    have h : 0 < ("Web search error: ").length := by decide
    omega

/-- C9: `sortByEngagement` orders by engagement (score plus twice the
comment count) descending — in the output, a post with strictly greater
engagement sits at a strictly earlier index — and post A (score 10,
5 comments, engagement 20) sorts before post B (score 15, 0 comments,
engagement 15). -/
theorem c9_engagement_sort :
    (∀ (posts : List RedditPost) (i j : Fin (sortByEngagement posts).length),
      engagement ((sortByEngagement posts).get j) < engagement ((sortByEngagement posts).get i) →
      (i : Nat) < (j : Nat)) ∧
    sortByEngagement [c9postA, c9postB] = [c9postA, c9postB] ∧
    engagement c9postA = 20 ∧ engagement c9postB = 15 := by
  refine ⟨?_, by decide, by decide, by decide⟩
  intro posts i j hlt
  by_contra hle
  push_neg at hle
  rcases Nat.lt_or_ge (j : Nat) (i : Nat) with hji | hij
  · have hs : List.Pairwise engRel (sortByEngagement posts) :=
      List.sorted_insertionSort engRel posts
    have hrel := List.pairwise_iff_get.mp hs j i (Fin.lt_def.mpr hji)
    exact absurd hlt (not_lt.mpr hrel)
  · have hij' : (i : Nat) = (j : Nat) := Nat.le_antisymm hij hle
    have : i = j := Fin.ext hij'
    subst this
    exact absurd hlt (lt_irrefl _)

/-- Witness for C9: in the sorted two-post example, index 1 carries
strictly less engagement than index 0, and the theorem places it later. -/
theorem c9_witness :
    engagement ((sortByEngagement [c9postA, c9postB]).get ⟨1, by decide⟩) <
      engagement ((sortByEngagement [c9postA, c9postB]).get ⟨0, by decide⟩) ∧
    (0 : Nat) < (1 : Nat) :=
  ⟨by decide, c9_engagement_sort.1 [c9postA, c9postB] ⟨0, by decide⟩ ⟨1, by decide⟩ (by decide)⟩

end SocialListening
